import Mathlib

/-!
Verification development for the `django-vimage` rule-resolution and
validator-compilation engine (`vimage/core/`).

The Python code is shallowly embedded: dynamically typed rule payloads
become the inductive `PyVal`; functions that may `raise` return
`Except PyError _`.  Dictionary payload keys are modelled as `String`
(every rule-payload dictionary in the engine is keyed by operator /
`w` / `h` / `err` strings); Python `bool` and `None` operands are not
modelled as they occur in no validated flow.
-/

set_option maxHeartbeats 1000000

namespace Vimage

/-- A Python value, as far as the vimage rule grammar is concerned.
Floats are modelled as rationals (the engine never performs
float arithmetic in the flows verified here: rules are only
type-checked, compared and rendered). -/
inductive PyVal where
  | int (n : Int)
  | float (q : Rat)
  | str (s : String)
  | tuple (xs : List PyVal)
  | list (xs : List PyVal)
  | dict (d : List (String × PyVal))
deriving Repr

/-- The exception surface of `vimage.core` (`exceptions.py`) plus the
built-in Python exceptions the code can raise. -/
inductive PyError where
  | missingConfig (msg : String)
  | invalidConfigValue (msg : String)
  | emptyConfig (msg : String)
  | invalidKey (msg : String)
  | invalidValue (msg : String)
  | validationError (msg : String)
  | typeError (msg : String)
  | keyError (msg : String)
  | indexError (msg : String)
  | attributeError (msg : String)
  | nameError (msg : String)
deriving Repr, DecidableEq

/-! ### `const.py` -/

def type_size : String := "SIZE"
def type_dimensions : String := "DIMENSIONS"
def type_format : String := "FORMAT"
def type_aspect_ratio : String := "ASPECT_RATIO"

def valid_types_strings : List String :=
  [type_size, type_dimensions, type_format, type_aspect_ratio]

def const_err : String := "err"
def const_w : String := "w"
def const_h : String := "h"

/-- `const.width_height_operators = {w, h}` as a list. -/
def width_height_operators : List String := [const_w, const_h]

def const_lt : String := "lt"
def const_lte : String := "lte"
def const_gt : String := "gt"
def const_gte : String := "gte"
def const_ne : String := "ne"
def const_eq : String := "eq"

/-- Keys of `const.comparison_operators`, in declaration order. -/
def valid_operators_strings : List String :=
  [const_lt, const_lte, const_gt, const_gte, const_ne, const_eq]

/-- `const.human_opr` (gettext is the identity here). -/
def human_opr (opr : String) : Option String :=
  if opr = const_lt then some "less than"
  else if opr = const_lte then some "less than or equal to"
  else if opr = const_gt then some "greater than"
  else if opr = const_gte then some "greater than or equal to"
  else if opr = const_ne then some "not equal to"
  else if opr = const_eq then some "equal to"
  else none

def trans_and : String := "and"
def trans_or : String := "or"

def allowable_web_image_extensions : List String :=
  ["jpeg", "png", "gif", "bmp", "webp"]

/-- `const.nonsense_operators()`: the fixed exclusion table of operator
pairs that may not appear together, as ordered pairs (set membership of
a 2-element set is membership of both components). -/
def nonsense_operators_pairs : List (String × String) :=
  [(const_lt, const_lte),
   (const_gt, const_gte),
   (const_lt, const_eq),
   (const_gt, const_eq),
   (const_lte, const_eq),
   (const_gte, const_eq),
   (const_ne, const_eq)]

/-- `const.nonsense_values_together()`. -/
def nonsense_values_together_pairs : List (String × String) :=
  [(type_dimensions, type_aspect_ratio)]

/-! ### Python value primitives -/

/-- Python truthiness for the values that can hold a custom error. -/
def pyTruthy : PyVal → Bool
  | .int n => n != 0
  | .float q => q != 0
  | .str s => !s.toList.isEmpty
  | .tuple xs => !xs.isEmpty
  | .list xs => !xs.isEmpty
  | .dict d => !d.isEmpty

/-- Python `type(v).__name__`. -/
def pyTypeName : PyVal → String
  | .int _ => "int"
  | .float _ => "float"
  | .str _ => "str"
  | .tuple _ => "tuple"
  | .list _ => "list"
  | .dict _ => "dict"

/-- ASCII `str.lower` (structurally recursive so that concrete rule
evaluations reduce). -/
def pyLower (s : String) : String :=
  String.mk (s.toList.map Char.toLower)

/-- ASCII `str.upper`. -/
def pyUpper (s : String) : String :=
  String.mk (s.toList.map Char.toUpper)

/-- ASCII `str.capitalize`: first character upper-cased, the rest
lower-cased. -/
def pyCapitalize (s : String) : String :=
  match s.toList with
  | [] => ""
  | c :: cs => String.mk (c.toUpper :: cs.map Char.toLower)

/-- Rendering of a float used in diagnostic strings.  This approximates
Python `str(float)`; no verified statement depends on it. -/
def floatToString (q : Rat) : String :=
  if q.den = 1 then toString q.num ++ ".0" else toString q.num ++ "/" ++ toString q.den

mutual

/-- Python `repr(v)` (as used when a value is interpolated inside a
container rendering).  Braces are written with escapes. -/
def pyRepr : PyVal → String
  | .int n => toString n
  | .float q => floatToString q
  | .str s => "\x27" ++ s ++ "\x27"
  | .tuple xs => "(" ++ pyReprList xs ++ ")"
  | .list xs => "[" ++ pyReprList xs ++ "]"
  | .dict d => "\x7b" ++ pyReprDict d ++ "\x7d"

def pyReprList : List PyVal → String
  | [] => ""
  | [x] => pyRepr x
  | x :: xs => pyRepr x ++ ", " ++ pyReprList xs

def pyReprDict : List (String × PyVal) → String
  | [] => ""
  | [(k, v)] => "\x27" ++ k ++ "\x27: " ++ pyRepr v
  | (k, v) :: kvs => "\x27" ++ k ++ "\x27: " ++ pyRepr v ++ ", " ++ pyReprDict kvs

end

/-- Python `str(v)` (top-level `f'{v}'` interpolation). -/
def pyToStr : PyVal → String
  | .str s => s
  | v => pyRepr v

mutual

/-- Python `==` on the modelled values: numeric cross-type equality,
element-wise equality on sequences, `False` on mismatched types.
(Python dict equality is order-insensitive; dictionaries are never
compared as operands in any flow reachable from a compiled validator,
so the order-sensitive rendering here is not load-bearing.) -/
def pyEqB : PyVal → PyVal → Bool
  | .int m, .int n => m == n
  | .int m, .float q => (m : Rat) == q
  | .float p, .int n => p == (n : Rat)
  | .float p, .float q => p == q
  | .str s, .str t => s == t
  | .tuple xs, .tuple ys => pyEqListB xs ys
  | .list xs, .list ys => pyEqListB xs ys
  | .dict d1, .dict d2 => pyEqDictB d1 d2
  | _, _ => false

def pyEqListB : List PyVal → List PyVal → Bool
  | [], [] => true
  | x :: xs, y :: ys => pyEqB x y && pyEqListB xs ys
  | _, _ => false

def pyEqDictB : List (String × PyVal) → List (String × PyVal) → Bool
  | [], [] => true
  | (k1, v1) :: xs, (k2, v2) :: ys => k1 == k2 && pyEqB v1 v2 && pyEqDictB xs ys
  | _, _ => false

end

/-- Ordered comparison (`operator.lt` / `le` / `gt` / `ge`) on the
modelled values.  Numbers compare through ℚ, strings lexicographically;
every other combination raises `TypeError` as in Python.  (Python's
lexicographic sequence ordering is not modelled: no compiled validator
applies an ordered comparison to a sequence.) -/
def pyOrdCmp (decide_lt : Bool) (strict : Bool) (a b : PyVal) : Except PyError Bool :=
  let numCmp (x y : Rat) : Bool :=
    if decide_lt then (if strict then x < y else x ≤ y)
    else (if strict then y < x else y ≤ x)
  let strCmp (x y : String) : Bool :=
    if decide_lt then (if strict then x < y else x ≤ y)
    else (if strict then y < x else y ≤ x)
  match a, b with
  | .int m, .int n => .ok (numCmp (m : Rat) (n : Rat))
  | .int m, .float q => .ok (numCmp (m : Rat) q)
  | .float p, .int n => .ok (numCmp p (n : Rat))
  | .float p, .float q => .ok (numCmp p q)
  | .str s, .str t => .ok (strCmp s t)
  | x, y =>
      .error (.typeError ("ordered comparison not supported between instances of "
        ++ pyTypeName x ++ " and " ++ pyTypeName y))

/-- Whether `opr` is a key of `const.comparison_operators`. -/
def isComparisonOperator (opr : String) : Bool :=
  valid_operators_strings.contains opr

/-- `const.comparison_operators[opr]` applied to `(a, b)`; an unknown
operator string raises `KeyError` exactly as the Python lookup does. -/
def pyCmp (opr : String) (a b : PyVal) : Except PyError Bool :=
  if opr = const_lt then pyOrdCmp true true a b
  else if opr = const_lte then pyOrdCmp true false a b
  else if opr = const_gt then pyOrdCmp false true a b
  else if opr = const_gte then pyOrdCmp false false a b
  else if opr = const_ne then .ok (!pyEqB a b)
  else if opr = const_eq then .ok (pyEqB a b)
  else .error (.keyError opr)

/-- Python sequence indexing `v[i]` for the cases a validator can hit. -/
def pyIndex (v : PyVal) (i : Nat) : Except PyError PyVal :=
  match v with
  | .tuple xs =>
      match xs.get? i with
      | some x => .ok x
      | none => .error (.indexError "tuple index out of range")
  | .list xs =>
      match xs.get? i with
      | some x => .ok x
      | none => .error (.indexError "list index out of range")
  | .str s =>
      match s.toList.get? i with
      | some c => .ok (.str (String.mk [c]))
      | none => .error (.indexError "string index out of range")
  | x => .error (.typeError (pyTypeName x ++ " object is not subscriptable"))

end Vimage

namespace Vimage

/-! ### `ValidationRuleBase` (`validator_types.py`) -/

/-- The `valid_value_type` argument of `validate_operators`. -/
inductive VType where
  | tInt
  | tFloat
  | tTuple
deriving Repr

def VType.name : VType → String
  | .tInt => "int"
  | .tFloat => "float"
  | .tTuple => "tuple"

/-- Python `isinstance(v, t)` for the three expected types. -/
def VType.isinstance : VType → PyVal → Bool
  | .tInt, .int _ => true
  | .tFloat, .float _ => true
  | .tTuple, .tuple _ => true
  | _, _ => false

/-- `ValidationRuleBase.positive_num` on an int. -/
def positive_num_int (x : Int) : Bool := x > 0

/-- `ValidationRuleBase.positive_num` on a float. -/
def positive_num_float (x : Rat) : Bool := x > 0

/-- `ValidationRuleBase.positive_elements`: non-empty and all elements
positive ints. -/
def positive_elements (iterable : List PyVal) : Bool :=
  if iterable.isEmpty then false
  else iterable.all fun x =>
    match x with
    | .int n => positive_num_int n
    | _ => false

/-- `ValidationRuleBase.positive_two_len_tuple`. -/
def positive_two_len_tuple (t : PyVal) : Bool :=
  match t with
  | .tuple xs => xs.length == 2 && positive_elements xs
  | _ => false

/-- `ValidationRuleBase.positive_list`. -/
def positive_list (ls : PyVal) : Bool :=
  match ls with
  | .list xs => !xs.isEmpty && xs.all positive_two_len_tuple
  | _ => false

/-- Common prefix of many rule error messages:
`The value of the rule "{name}", "{rule}", `. -/
def ruleMsgStart (name : String) (rule : PyVal) : String :=
  "The value of the rule \"" ++ name ++ "\", \"" ++ pyToStr rule ++ "\", "

/-- `self.rule.keys()`; raises `AttributeError` on a non-dict exactly as
Python attribute access would. -/
def pyDictKeys (v : PyVal) : Except PyError (List String) :=
  match v with
  | .dict d => .ok (d.map Prod.fst)
  | x => .error (.attributeError (pyTypeName x ++ " object has no attribute keys"))

/-- `ValidationRuleBase.only_err_key`. -/
def only_err_key (name : String) (rule : PyVal) (keys : List String) :
    Except PyError Unit :=
  match keys with
  | [k] =>
      if k = const_err then
        .error (.invalidValue (ruleMsgStart name rule ++
          "should consist of at least one operator key."))
      else .ok ()
  | _ => .ok ()

/-- `ValidationRuleBase.nonsense_operators`: raise on the first exclusion
pair whose two operators both occur among `keys`. -/
def nonsense_operators (rule : PyVal) (keys : List String) :
    Except PyError Unit :=
  match nonsense_operators_pairs.find?
      (fun p => keys.contains p.1 && keys.contains p.2) with
  | some p =>
      .error (.invalidValue ("Encountered nonsense operators, \"" ++ p.1 ++ ", "
        ++ p.2 ++ "\", inside \"" ++ pyToStr rule ++ "\"!"))
  | none => .ok ()

/-- `ValidationRuleBase.valid_dict_rule_str` (with the default
`max_keys=2`); `rule` is the dict under validation. -/
def valid_dict_rule_str (name : String) (rule : PyVal) : Except PyError Unit := do
  let entries ← match rule with
    | .dict d => pure d
    | x => .error (.typeError ("object of type " ++ pyTypeName x ++ " has no len"))
  if entries.length > 2 then
    .error (.invalidValue (ruleMsgStart name rule ++
      "should consist of at most two keys: \"" ++ const_eq ++ "\" or \"" ++
      const_ne ++ "\" (mandatory) and \"" ++ const_err ++
      "\" (optional, for custom error message)."))
  else
  only_err_key name rule (entries.map Prod.fst)
  nonsense_operators rule (entries.map Prod.fst)
  -- Operations that may be applied to str (not int).
  let validStrKeys := [const_eq, const_ne, const_err]
  match entries.find? (fun kv => !validStrKeys.contains kv.1) with
  | some kv =>
      .error (.invalidValue (ruleMsgStart name rule ++
        "has encountered an invalid key \"" ++ kv.1 ++ "\". Valid keys: " ++
        String.intercalate ", " validStrKeys ++ "."))
  | none => .ok ()

/-- One iteration of the `validate_operators` loop over `d.items()`
(the messages in this loop do not mention the rule name). -/
def validate_operators_item (rule : PyVal)
    (vt : VType) (kv : String × PyVal) : Except PyError Unit :=
  let key := kv.1
  let value := kv.2
  if key = const_err then .ok ()
  else if !isComparisonOperator key then
    .error (.invalidValue ("Encountered invalid key, \"" ++ key ++ "\" inside \""
      ++ pyToStr rule ++ "\"!"))
  else if !vt.isinstance value then
    .error (.invalidValue ("The value of the key \"" ++ key ++ "\", inside \"" ++
      pyToStr rule ++ "\", should be \"" ++ vt.name ++ "\". Now it\x27s type is \""
      ++ pyTypeName value ++ "\"."))
  else
    match value with
    | .int n =>
        if !positive_num_int n then
          .error (.invalidValue ("The value of the key \"" ++ key ++
            "\", inside \"" ++ pyToStr rule ++
            "\", should be a positive integer. Now it\x27s value is \"" ++
            pyToStr value ++ "\"."))
        else .ok ()
    | .tuple _ =>
        if !positive_two_len_tuple value then
          .error (.invalidValue ("The value of the key \"" ++ key ++
            "\", inside \"" ++ pyToStr rule ++
            "\", should consist of tuples with two positive integers, each. " ++
            "Now it\x27s value is \"" ++ pyToStr value ++ "\"."))
        else .ok ()
    | _ => .ok ()

/-- `ValidationRuleBase.validate_operators(d, valid_value_type)`.

Note: the `only_err_key` and `nonsense_operators` pre-checks inspect
`self.rule.keys()` — the *instance* rule — and not `d`, exactly as in
the source (`validator_types.py` lines 227-231). -/
def validate_operators (name : String) (rule : PyVal) (d : PyVal)
    (vt : VType) : Except PyError Unit := do
  -- check if only "err" key is defined
  let ruleKeys ← pyDictKeys rule
  only_err_key name rule ruleKeys
  -- check if nonsense operators are defined
  nonsense_operators rule ruleKeys
  -- for key, value in d.items(): ...
  match d with
  | .dict entries =>
      let rec go : List (String × PyVal) → Except PyError Unit
        | [] => .ok ()
        | kv :: rest => do
            validate_operators_item rule vt kv
            go rest
      go entries
  | x => .error (.attributeError (pyTypeName x ++ " object has no attribute items"))

end Vimage

namespace Vimage

/-! ### The four rule grammars: `is_valid` -/

/-- `const.errors['empty_dict']` after formatting. -/
def emptyDictMsg (name : String) (rule : PyVal) : String :=
  ruleMsgStart name rule ++ "should be a non-empty dict."

/-- `ValidationRuleSize.is_valid` (its `valid_dict_rule` inlined:
`validate_operators(self.rule, int)`). -/
def sizeIsValid (name : String) (rule : PyVal) : Except PyError Unit :=
  match rule with
  | .int n =>
      if !positive_num_int n then
        .error (.invalidValue (ruleMsgStart name rule ++
          "should be a positive integer."))
      else .ok ()
  | .dict d =>
      if d.isEmpty then .error (.invalidValue (emptyDictMsg name rule))
      else validate_operators name rule rule .tInt
  | _ =>
      .error (.invalidValue (ruleMsgStart name rule ++
        "should be either an int or a dict."))

/-- `ValidationRuleDimensions.has_width_height_keys`: the (non-empty) key
set is a subset of `{'w', 'h'}`. -/
def has_width_height_keys (d : List (String × PyVal)) : Bool :=
  !d.isEmpty && d.all fun kv => width_height_operators.contains kv.1

/-- `ValidationRuleDimensions.valid_dict_rule`.  In the width/height
branch `validate_operators` is called on each *sub-value* while its
`only_err_key` / `nonsense_operators` pre-checks still inspect the
top-level rule (see `validate_operators`). -/
def dimensionsValidDictRule (name : String) (rule : PyVal)
    (d : List (String × PyVal)) : Except PyError Unit :=
  if has_width_height_keys d then
    let rec go : List (String × PyVal) → Except PyError Unit
      | [] => .ok ()
      | kv :: rest => do
          validate_operators name rule kv.2 .tInt
          go rest
    go d
  else
    validate_operators name rule rule .tTuple

/-- `ValidationRuleDimensions.is_valid`. -/
def dimensionsIsValid (name : String) (rule : PyVal) : Except PyError Unit :=
  match rule with
  | .tuple _ =>
      if !positive_two_len_tuple rule then
        .error (.invalidValue (ruleMsgStart name rule ++
          "should consist of two positive integers."))
      else .ok ()
  | .list _ =>
      if !positive_list rule then
        .error (.invalidValue (ruleMsgStart name rule ++
          "should consist of tuples with two positive integers, each."))
      else .ok ()
  | .dict d =>
      if d.isEmpty then .error (.invalidValue (emptyDictMsg name rule))
      else dimensionsValidDictRule name rule d
  | _ =>
      .error (.invalidValue (ruleMsgStart name rule ++
        "should be either a tuple, a list or a dict."))

/-- `ValidationRuleFormat.valid_format`. -/
def valid_format (v : PyVal) : Bool :=
  match v with
  | .str s => allowable_web_image_extensions.contains (pyLower s)
  | _ => false

/-- `ValidationRuleFormat.valid_format_list`. -/
def valid_format_list (list_formats : List PyVal) : Bool :=
  if list_formats.isEmpty then false
  else list_formats.all valid_format

/-- `ValidationRuleFormat.valid_dict_rule`. -/
def formatValidDictRule (name : String) (rule : PyVal)
    (d : List (String × PyVal)) : Except PyError Unit := do
  valid_dict_rule_str name rule
  let rec go : List (String × PyVal) → Except PyError Unit
    | [] => .ok ()
    | (k, v) :: rest =>
        if k = const_err then go rest
        else
          match v with
          | .str _ =>
              if !valid_format v then
                .error (.invalidValue ("The value of the key \"" ++ k ++
                  "\", inside \"" ++ name ++ ": " ++ pyToStr rule ++
                  "\", should be one of: \"" ++
                  String.intercalate ", " allowable_web_image_extensions ++ "\"."))
              else go rest
          | .list xs =>
              if !valid_format_list xs then
                .error (.invalidValue ("The value of the key \"" ++ k ++
                  "\", inside \"" ++ name ++ ": " ++ pyToStr rule ++
                  "\", should be one or more of: \"" ++
                  String.intercalate ", " allowable_web_image_extensions ++ "\"."))
              else go rest
          | _ =>
              .error (.invalidValue ("The value of the key \"" ++ k ++
                "\", inside \"" ++ name ++ ": " ++ pyToStr rule ++
                "\", should be either a str or a list. Now it\x27s type is \"" ++
                pyTypeName v ++ "\"."))
  go d

/-- `ValidationRuleFormat.is_valid`. -/
def formatIsValid (name : String) (rule : PyVal) : Except PyError Unit :=
  match rule with
  | .str _ =>
      if !valid_format rule then
        .error (.invalidValue (ruleMsgStart name rule ++
          "should be one of the valid formats: \"" ++
          String.intercalate ", " allowable_web_image_extensions ++ "\"."))
      else .ok ()
  | .list xs =>
      if !valid_format_list xs then
        .error (.invalidValue (ruleMsgStart name rule ++
          "should be one or more of the valid image formats: \"" ++
          String.intercalate ", " allowable_web_image_extensions ++ "\"."))
      else .ok ()
  | .dict d =>
      if d.isEmpty then .error (.invalidValue (emptyDictMsg name rule))
      else formatValidDictRule name rule d
  | _ =>
      .error (.invalidValue (ruleMsgStart name rule ++
        "should be either a str, list or dict."))

/-- `ValidationRuleAspectRatio.is_valid` (its `valid_dict_rule` inlined:
`validate_operators(self.rule, float)`).  An `int` rule is rejected by
the first `isinstance(self.rule, (float, dict))` test, so the
`(int, float)` positivity test only ever sees floats. -/
def aspectRatioIsValid (name : String) (rule : PyVal) : Except PyError Unit :=
  match rule with
  | .float q =>
      if !positive_num_float q then
        .error (.invalidValue (ruleMsgStart name rule ++
          "should be a positive float."))
      else .ok ()
  | .dict d =>
      if d.isEmpty then .error (.invalidValue (emptyDictMsg name rule))
      else validate_operators name rule rule .tFloat
  | _ =>
      .error (.invalidValue (ruleMsgStart name rule ++
        "should be either a float or dict."))

/-- `validation_rule_factory(key, value)` followed by `.is_valid()`:
dispatch on the rule-kind name. -/
def factoryIsValid (key : String) (value : PyVal) : Except PyError Unit :=
  if key = type_size then sizeIsValid key value
  else if key = type_dimensions then dimensionsIsValid key value
  else if key = type_format then formatIsValid key value
  else if key = type_aspect_ratio then aspectRatioIsValid key value
  else
    .error (.invalidValue ("[" ++ key ++
      "]: This is not a valid key for a value. Valid values are \"" ++
      String.intercalate ", " valid_types_strings ++ "\""))

end Vimage

namespace Vimage

/-! ### Humanization and the compiled validators -/

/-- `const.trans_type` (gettext is the identity). -/
def trans_type (n : String) : Option String :=
  if n = type_size then some "SIZE"
  else if n = type_dimensions then some "DIMENSIONS"
  else if n = type_format then some "FORMAT"
  else if n = type_aspect_ratio then some "ASPECT RATIO"
  else if n = "MODE" then some "MODE"
  else none

/-- `const.trans_wh`. -/
def trans_wh (dimension : String) : Except PyError String :=
  if dimension = const_w then .ok "width"
  else if dimension = const_h then .ok "height"
  else .error (.keyError dimension)

/-- `ValidationRuleBase.humanize_dict_rules`; `human_func` defaults to the
identity rendering, callers pass prettifiers that may themselves raise.
Note that the comprehension runs over *all* items, the optional `err`
entry included (`human_opr.get` then yields `None`). -/
def humanize_dict_rules (rule : List (String × PyVal))
    (human_func : PyVal → Except PyError String) (unit : String) :
    Except PyError (List String) :=
  rule.mapM fun kv => do
    let hv ← human_func kv.2
    pure ((human_opr kv.1).getD "None" ++ " " ++ hv ++ unit)

/-- `ValidationRuleBase.format_humanized_rules`: singular rules come back
bare (the early `return` skips the prefix); an empty list hits
`rules[-1]` and raises `IndexError`. -/
def format_humanized_rules (rules : List String) (sep : String)
    (pfx : String) : Except PyError String :=
  let sep := if sep = "" then trans_and else sep
  let pfx := if pfx = "" then "" else pfx ++ " "
  match rules with
  | [] => .error (.indexError "list index out of range")
  | [r] => .ok r
  | [r1, r2] => .ok (pfx ++ r1 ++ " " ++ sep ++ " " ++ r2)
  | rs =>
      .ok (pfx ++ String.intercalate ", " (rs.dropLast) ++ " " ++ sep ++ " "
        ++ (rs.getLastD ""))

/-- `ValidationRuleBase.error_message_template`; formatting calls
`rule_name.upper()`, which raises on a missing translation entry. -/
def error_message_template (rule_name : Option String) (value : String)
    (rule : String) : Except PyError String :=
  match rule_name with
  | some s =>
      .ok ("<strong>[IMAGE " ++ pyUpper s ++ "]</strong> Validation error: " ++
        "<strong>" ++ value ++ "</strong> does not meet validation rule: " ++
        "<strong>" ++ rule ++ "</strong>.")
  | none => .error (.attributeError "NoneType object has no attribute upper")

/-- `render_human_rule(err)` with the default `safe=True`: `mark_safe`
keeps a string unchanged and stringifies anything else. -/
def renderErrValue (err : PyVal) : String :=
  match err with
  | .str s => s
  | v => pyToStr v

/-- `' '.join(...)`; a non-string element raises `TypeError`. -/
def pyJoin (sep : String) (parts : List PyVal) : Except PyError String := do
  let strs ← parts.mapM fun p =>
    match p with
    | PyVal.str s => Except.ok s
    | x => Except.error (PyError.typeError
        ("sequence item: expected str instance, " ++ pyTypeName x ++ " found"))
  pure (String.intercalate sep strs)

/-- `ValidationRuleBase.build_tests(rule, value)`: apply each operator to
`(value, declared_operand)` in declaration order, extracting a custom
`err` entry on the side (initially the empty string). -/
def build_tests (rule : List (String × PyVal)) (value : PyVal) :
    Except PyError (List Bool × PyVal) :=
  let rec go (tests : List Bool) (errv : PyVal) :
      List (String × PyVal) → Except PyError (List Bool × PyVal)
    | [] => .ok (tests, errv)
    | (k, v) :: rest =>
        if k = const_err then go tests v rest
        else do
          let b ← pyCmp k value v
          go (tests ++ [b]) errv rest
  go [] (.str "") rule

/-- The image resource as the compiled validators observe it: byte size,
pixel dimensions and the decoded PIL format string. -/
structure Img where
  size : Nat
  width : Nat
  height : Nat
  format : String
deriving Repr

/-! #### SIZE -/

/-- `ValidationRuleSize.humanize_rule`. -/
def humanizeSizeRule (rule : PyVal) : Except PyError String :=
  match rule with
  | .int n => .ok ((human_opr const_eq).getD "None" ++ " " ++ toString n ++ "KB")
  | .dict d => do
      let rules ← humanize_dict_rules d (fun v => .ok (pyToStr v)) "KB"
      format_humanized_rules rules "" ""
  | x => .error (.attributeError (pyTypeName x ++ " object has no attribute items"))

/-- The predicate compiled by `ValidationRuleSize.generate_validator`:
the byte size is floor-divided by 1024 before any comparison. -/
def sizeValidator (name : String) (rule : PyVal) (img : Img) :
    Except PyError Unit := do
  let kb : Nat := img.size / 1024
  let value := PyVal.int (kb : Int)
  let (tests, errv) ←
    match rule with
    | .int _ => pure ([pyEqB value rule], PyVal.str "")
    | .dict d => build_tests d value
    | _ => pure (([] : List Bool), PyVal.str "")
  if tests.all id then .ok ()
  else do
    let msg ←
      if pyTruthy errv then pure (renderErrValue errv)
      else do
        let hr ← humanizeSizeRule rule
        error_message_template (trans_type name) (toString kb ++ "KB") hr
    .error (.validationError msg)

/-! #### DIMENSIONS -/

/-- `ValidationRuleDimensions.prettify_value` (separator fixed to `'x'`). -/
def prettifyDims (v : PyVal) : Except PyError String := do
  let a ← pyIndex v 0
  let b ← pyIndex v 1
  pure (pyToStr a ++ " x " ++ pyToStr b ++ "px")

/-- `ValidationRuleDimensions.humanize_rule`. -/
def humanizeDimsRule (rule : PyVal) : Except PyError String :=
  match rule with
  | .dict d =>
      if has_width_height_keys d then do
        let whRules ← d.mapM fun kv => do
          let dim ← trans_wh kv.1
          let subRules ← match kv.2 with
            | .dict dd => humanize_dict_rules dd (fun v => .ok (pyToStr v)) "px"
            | x => .error (.attributeError (pyTypeName x ++
                " object has no attribute items"))
          let formatted ← format_humanized_rules subRules "" ""
          pure (pyCapitalize dim ++ " " ++ formatted)
        pure (String.intercalate ". " whRules)
      else do
        let rules ← humanize_dict_rules d prettifyDims ""
        format_humanized_rules rules "" ""
  | _ => do
      let asList ← match rule with
        | .tuple _ => pure [rule]
        | .list xs => pure xs
        | x => .error (.typeError (pyTypeName x ++ " object is not iterable"))
      let pretty ← asList.mapM prettifyDims
      let s ← format_humanized_rules pretty trans_or "one of the following dimensions"
      pure ((human_opr const_eq).getD "None" ++ " " ++ s)

/-- The width/height-split branch of the dimensions validator: collect
the sub-tests of every declared dimension and join the custom error
strings (if any) with a space. -/
def dimsWidthHeightTests (d : List (String × PyVal)) (width height : Nat) :
    Except PyError (List Bool × List PyVal) :=
  let rec go (tests : List Bool) (errs : List PyVal) :
      List (String × PyVal) → Except PyError (List Bool × List PyVal)
    | [] => .ok (tests, errs)
    | (dim, oprValues) :: rest => do
        let testValue : Nat := if dim = const_w then width else height
        let entries ← match oprValues with
          | .dict dd => pure dd
          | x => .error (.attributeError (pyTypeName x ++
              " object has no attribute items"))
        let (locTests, e) ← build_tests entries (.int (testValue : Int))
        let errs := if pyTruthy e then errs ++ [e] else errs
        go (tests ++ locTests) errs rest
  go [] [] d

/-- The list-rule comprehension of the dimensions validator: one boolean
per listed tuple, `equal(width, t[0]) and equal(height, t[1])`,
left-to-right with the first indexing error propagating. -/
def dimsListTests (width height : Nat) : List PyVal → Except PyError (List Bool)
  | [] => .ok []
  | dims :: rest => do
      let a ← pyIndex dims 0
      let b ← pyIndex dims 1
      let t := pyEqB (.int (width : Int)) a && pyEqB (.int (height : Int)) b
      let ts ← dimsListTests width height rest
      pure (t :: ts)

/-- The joint `{operator: (w, h)}` branch of the dimensions validator. -/
def dimsJointTests (d : List (String × PyVal)) (width height : Nat) :
    Except PyError (List Bool × PyVal) :=
  let rec go (tests : List Bool) (errv : PyVal) :
      List (String × PyVal) → Except PyError (List Bool × PyVal)
    | [] => .ok (tests, errv)
    | (k, v) :: rest =>
        if k = const_err then go tests v rest
        else if !isComparisonOperator k then .error (.keyError k)
        else do
          let a ← pyIndex v 0
          let b ← pyIndex v 1
          let t1 ← pyCmp k (.int (width : Int)) a
          let t2 ← pyCmp k (.int (height : Int)) b
          go (tests ++ [t1, t2]) errv rest
  go [] (.str "") d

/-- The predicate compiled by
`ValidationRuleDimensions.generate_validator`.  A list rule uses
match-ANY (`any`) across the listed tuples; every other shape uses
match-ALL. -/
def dimensionsValidator (name : String) (rule : PyVal) (img : Img) :
    Except PyError Unit := do
  let width := img.width
  let height := img.height
  let (tests, errv, useAny) ←
    match rule with
    | .tuple _ => do
        let a ← pyIndex rule 0
        let b ← pyIndex rule 1
        pure ([pyEqB (.int (width : Int)) a, pyEqB (.int (height : Int)) b],
          PyVal.str "", false)
    | .list ds => do
        let tests ← dimsListTests width height ds
        pure (tests, PyVal.str "", true)
    | .dict d =>
        if has_width_height_keys d then do
          let (tests, errs) ← dimsWidthHeightTests d width height
          let joined ← pyJoin " " errs
          pure (tests, PyVal.str joined, false)
        else do
          let (tests, errv) ← dimsJointTests d width height
          pure (tests, errv, false)
    | _ => pure (([] : List Bool), PyVal.str "", false)
  if (if useAny then tests.any id else tests.all id) then .ok ()
  else do
    let msg ←
      if pyTruthy errv then pure (renderErrValue errv)
      else do
        let pv ← prettifyDims (.tuple [.int (width : Int), .int (height : Int)])
        let hr ← humanizeDimsRule rule
        error_message_template (trans_type name) pv hr
    .error (.validationError msg)

/-! #### FORMAT -/

/-- `ValidationRuleFormat.prettify_value`. -/
def prettifyFormat (v : PyVal) : Except PyError String :=
  match v with
  | .str s => .ok (pyUpper s)
  | x => .error (.attributeError (pyTypeName x ++ " object has no attribute upper"))

/-- `ValidationRuleFormat.humanize_rule`. -/
def humanizeFormatRule (rule : PyVal) : Except PyError String :=
  match rule with
  | .dict d => do
      -- Only one operator is allowed, "ne" or "eq"; the loop keeps the
      -- rendering of the final item (an empty dict leaves the loop
      -- variables unbound).
      let rendered ← d.mapM fun kv => do
        let transOpr ← match human_opr kv.1 with
          | some s => Except.ok s
          | none => Except.error (PyError.keyError kv.1)
        let r ← match kv.2 with
          | .list xs => do
              let pretty ← xs.mapM prettifyFormat
              format_humanized_rules pretty "" "the following formats"
          | v => prettifyFormat v
        pure (transOpr ++ " " ++ r)
      match rendered.getLast? with
      | some s => pure s
      | none => .error (.nameError "name trans_opr is not defined")
  | _ => do
      let asList ← match rule with
        | .str _ => pure [rule]
        | .list xs => pure xs
        | x => .error (.typeError (pyTypeName x ++ " object is not iterable"))
      let pretty ← asList.mapM prettifyFormat
      let s ← format_humanized_rules pretty trans_or "one of the following formats"
      pure ((human_opr const_eq).getD "None" ++ " " ++ s)

/-- The dict branch of the format validator: `tests` is *reassigned* by
each operator entry (so with several operator keys the last one wins). -/
def formatDictTests (d : List (String × PyVal)) (value : String) :
    Except PyError (List Bool × PyVal) :=
  let rec go (tests : List Bool) (errv : PyVal) :
      List (String × PyVal) → Except PyError (List Bool × PyVal)
    | [] => .ok (tests, errv)
    | (k, v) :: rest =>
        if k = const_err then go tests v rest
        else if !isComparisonOperator k then .error (.keyError k)
        else
          match v with
          | .str _ => do
              let b ← pyCmp k (.str value) v
              go [b] errv rest
          | .list xs => do
              let bs ← xs.mapM fun fs => pyCmp k (.str value) fs
              go bs errv rest
          | _ => go tests errv rest
  go [] (.str "") d

/-- The predicate compiled by `ValidationRuleFormat.generate_validator`:
the decoded format string is lower-cased, then compared. -/
def formatValidator (name : String) (rule : PyVal) (img : Img) :
    Except PyError Unit := do
  let value := pyLower img.format
  let (tests, errv, useAny) ←
    match rule with
    | .str _ => pure ([pyEqB (.str value) rule], PyVal.str "", false)
    | .list xs => pure (xs.map (fun fs => pyEqB (.str value) fs), PyVal.str "", true)
    | .dict d => do
        let (tests, errv) ← formatDictTests d value
        pure (tests, errv, false)
    | _ => pure (([] : List Bool), PyVal.str "", false)
  if (if useAny then tests.any id else tests.all id) then .ok ()
  else do
    let msg ←
      if pyTruthy errv then pure (renderErrValue errv)
      else do
        let pv ← prettifyFormat (.str value)
        let hr ← humanizeFormatRule rule
        error_message_template (trans_type name) pv hr
    .error (.validationError msg)

end Vimage

namespace Vimage

/-! ### `VimageKey` (`base.py`) and the external model registry -/

/-- `APP_NAME = VimageConfig.name`. -/
def app_name : String := "vimage"

/-- `CONFIG_NAME`. -/
def config_name : String := "VIMAGE"

/-- `django.apps.config.MODELS_MODULE_NAME`. -/
def models_module_name : String := "models"

/-- One model of an installed app, reduced to what key resolution
observes: its class name and the names of its `ImageField` fields (in
`_meta.get_fields()` order; non-image fields are filtered out before
any name is used, so they are not modelled). -/
structure ModelInfo where
  name : String
  imageFields : List String
deriving Repr, DecidableEq

/-- One installed app: label, whether it has a `models` module, and its
model classes in `get_models()` order. -/
structure AppInfo where
  label : String
  hasModelsModule : Bool
  models : List ModelInfo
deriving Repr, DecidableEq

/-- `apps.get_app_config(app_label)`, `None` for the `LookupError` case. -/
def get_app_config (reg : List AppInfo) (label : String) : Option AppInfo :=
  reg.find? fun a => a.label == label

/-- The Python keywords (`keyword.iskeyword`). -/
def python_keywords : List String :=
  ["False", "None", "True", "and", "as", "assert", "async", "await",
   "break", "class", "continue", "def", "del", "elif", "else", "except",
   "finally", "for", "from", "global", "if",
   "import", "in", "is", "lambda", "nonlocal", "not", "or", "pass",
   "raise", "return", "try", "while", "with", "yield"]

/-- `str.isidentifier`, restricted to ASCII identifiers (the Unicode
XID classes are not modelled; no verified statement involves a
non-ASCII key). -/
def isIdentifier (s : String) : Bool :=
  match s.toList with
  | [] => false
  | c :: cs => (c.isAlpha || c = '_') && cs.all fun d => d.isAlphanum || d = '_'

/-- `VimageKey.split_key`. -/
def splitDotsAux : List Char → List (List Char)
  | [] => [[]]
  | c :: cs =>
      if c = '.' then [] :: splitDotsAux cs
      else
        match splitDotsAux cs with
        | [] => [[c]]
        | w :: ws => (c :: w) :: ws

/-- `key.split('.')` (structural, with Python semantics:
`''.split('.') == ['']`, empty segments preserved). -/
def split_key (key : String) : List String :=
  (splitDotsAux key.toList).map fun cs => String.mk cs

/-- `VimageKey.models_in_key`. -/
def models_in_key (keywords : List String) : Bool :=
  keywords.length > 1 && keywords.getD 1 "" == models_module_name

/-- `VimageKey.valid_key_length`: between 2 and 4 words. -/
def valid_key_length (keywords : List String) : Bool :=
  2 ≤ keywords.length && keywords.length ≤ 4

/-- `VimageKey.validate_dotted_key`.

Faithful to the source, the 4-word branch collects the image-field
names of **all** models of the app (`model_classes`), not only of the
named model. -/
def validate_dotted_key (reg : List AppInfo) (key : String) :
    Except PyError Unit :=
  let start := "[" ++ key ++ "]:"
  let keywords := split_key key
  if !valid_key_length keywords then
    .error (.invalidKey (start ++ " The key must consists of two to four " ++
      "words, separated by dot. It must be a path to one of the following: " ++
      "the \"models\" module, a Django Model class or a Django ImageField field."))
  else if !models_in_key keywords then
    .error (.invalidKey (start ++ " The second word of the key, should be \"" ++
      models_module_name ++ "\", not \"" ++ keywords.getD 1 "" ++ "\"!"))
  else
    let app_label := keywords.headD ""
    match get_app_config reg app_label with
    | none =>
        .error (.invalidKey (start ++ " The app \"" ++ app_label ++
          "\" is either not in \"INSTALLED_APPS\" or it does not exist!"))
    | some app =>
        if !app.hasModelsModule then
          .error (.invalidKey (start ++ " The app \"" ++ app_label ++
            "\" has no \"models\" module defined. Are you sure it exists?"))
        else if keywords.length = 2 then .ok ()
        else
          -- keywords = keywords[2:]
          let rest := keywords.drop 2
          let model_classes := app.models
          let model_names := model_classes.map (·.name)
          let model_name := rest.headD ""
          if !model_names.contains model_name then
            .error (.invalidKey (start ++ " The model \"" ++ model_name ++
              "\" does not exist! Available model names: \"" ++
              String.intercalate ", " model_names ++ "\"."))
          else if rest.length = 2 then
            let image_field_names :=
              (model_classes.map (·.imageFields)).flatten
            let field_name := rest.getD 1 ""
            if !image_field_names.contains field_name then
              .error (.invalidKey (start ++ " The field \"" ++ field_name ++
                "\" does not exist! Available ImageField names: \"" ++
                String.intercalate ", " image_field_names ++ "\"."))
            else .ok ()
          else .ok ()

/-- `VimageKey.key_valid_dotted_format`. -/
def key_valid_dotted_format (key : String) : Bool :=
  (split_key key).all fun word =>
    isIdentifier word && !python_keywords.contains word

/-- `VimageKey.validate_key`. -/
def validate_key (reg : List AppInfo) (key : String) : Except PyError Unit := do
  if !key_valid_dotted_format key then
    .error (.invalidKey ("The key \"" ++ key ++ "\" is not a valid python " ++
      "dotted path (words separated with the \".\" dot character). " ++
      "Please check for any typos!"))
  else
    validate_dotted_key reg key

/-- `VimageKey.is_valid` (the key, already constructed, is a string; the
non-empty test remains). -/
def keyIsValid (reg : List AppInfo) (key : String) : Except PyError Unit := do
  if key.toList.isEmpty then
    .error (.invalidKey ("The key \"" ++ key ++ "\" should be a non-empty " ++
      "string. It must be the dotted path to the app\x27s \"models\" module " ++
      "or a \"Model\" class or an \"ImageField\" field."))
  else
    validate_key reg key

/-- `VimageKey.__init__`: a non-string key raises `TypeError` before any
validation can run. -/
def vimageKeyNew (key : PyVal) : Except PyError String :=
  match key with
  | .str s => .ok s
  | v =>
      .error (.typeError ("Each " ++ config_name ++ " dict key should be a " ++
        "<str> type. Current key: \"" ++ pyToStr v ++ "\", is <" ++
        pyTypeName v ++ ">!"))

/-- Key resolution as the checker exercises it: construct the
`VimageKey`, then run its `is_valid`. -/
def keyResolve (reg : List AppInfo) (key : PyVal) : Except PyError Unit := do
  let s ← vimageKeyNew key
  keyIsValid reg s

/-! ### `VimageValue`, `VimageEntry` and `configuration_check` -/

/-- `VimageValue.__init__`: a non-dict value raises `TypeError`. -/
def vimageValueNew (value : PyVal) : Except PyError (List (String × PyVal)) :=
  match value with
  | .dict d => .ok d
  | v =>
      .error (.typeError ("Each " ++ config_name ++ " dict value should be a " ++
        "<dict> type. Current value: \"" ++ pyToStr v ++ "\", is <" ++
        pyTypeName v ++ ">!"))

/-- `VimageValue.nonsense_keys_together`. -/
def nonsense_keys_together (value : PyVal) (d : List (String × PyVal)) :
    Except PyError Unit :=
  let keys := d.map Prod.fst
  match nonsense_values_together_pairs.find?
      (fun p => keys.contains p.1 && keys.contains p.2) with
  | some p =>
      .error (.invalidValue ("The value \"" ++ pyToStr value ++
        "\" contains nonsense values that together will not work! " ++
        "Use one of these.Nonsense values together: \"" ++ p.1 ++ ", " ++
        p.2 ++ "\""))
  | none => .ok ()

/-- `VimageValue.validate_value`: run each rule through the factory and
its `is_valid`, first failure wins. -/
def validate_value : List (String × PyVal) → Except PyError Unit
  | [] => .ok ()
  | (k, v) :: rest => do
      factoryIsValid k v
      validate_value rest

/-- `VimageValue.is_valid`. -/
def valueIsValid (value : PyVal) (d : List (String × PyVal)) :
    Except PyError Unit := do
  if d.isEmpty then
    .error (.invalidValue ("The value \"" ++ pyToStr value ++
      "\" should be a non-empty dict with the proper validation rules. " ++
      "Please check the documentation for more information."))
  else
    nonsense_keys_together value d
    validate_value d

/-- `VimageEntry(key, value).is_valid()`: construction builds the
`VimageValue` (which may raise `TypeError`), then validity runs key
first, value second.  Configuration keys are strings here; a non-string
raw key is covered by `keyResolve`. -/
def entryIsValid (reg : List AppInfo) (key : String) (value : PyVal) :
    Except PyError Unit := do
  let d ← vimageValueNew value
  keyIsValid reg key
  valueIsValid value d

/-- The per-entry loop of `configuration_check`. -/
def checkEntries (reg : List AppInfo) :
    List (String × PyVal) → Except PyError Unit
  | [] => .ok ()
  | (k, v) :: rest => do
      entryIsValid reg k v
      checkEntries reg rest

/-- `checker.configuration_check`: `none` models an absent `VIMAGE`
setting; the checks run in the fixed order missing → non-dict → empty →
per-entry. -/
def configuration_check (reg : List AppInfo)
    (vimage_setting : Option PyVal) : Except PyError Unit :=
  match vimage_setting with
  | none =>
      .error (.missingConfig ("\"" ++ app_name ++ "\" is in INSTALLED_APPS " ++
        "but has not been configured! Either add \"" ++ config_name ++
        "\" dict to your settings or remove \"" ++ app_name ++
        "\" from INSTALLED_APPS."))
  | some config =>
      match config with
      | .dict d =>
          if d.isEmpty then
            .error (.emptyConfig ("\"" ++ config_name ++
              "\" configuration is an empty dict! Add validation rules " ++
              "inside the \"" ++ config_name ++ "\" dict."))
          else checkEntries reg d
      | _ =>
          .error (.invalidConfigValue ("\"" ++ config_name ++
            "\" type is not a dictionary. The value should be a " ++
            "non-empty dict!"))

end Vimage

namespace Vimage

/-! ### `VimageConfig` registry building (`base.py`)

`VimageEntry.entry_info` dictionaries are modelled by the record
`EntryInfo`; the field type `F` and the compiled-predicate type `β` are
abstract (`build_draft_registry` treats both opaquely).  Python
dictionaries whose merge behaviour matters here are modelled as
association lists with Python dict semantics: `dictSet` replaces the
value of an existing key in place and appends a new key at the end. -/

/-- `d[a]` lookup, `None` for a missing key. -/
def dictGet {α β : Type} [DecidableEq α] : List (α × β) → α → Option β
  | [], _ => none
  | (k, v) :: rest, a => if k = a then some v else dictGet rest a

/-- `d[a] = b`: replace in place or append. -/
def dictSet {α β : Type} [DecidableEq α] : List (α × β) → α → β → List (α × β)
  | [], a, b => [(a, b)]
  | (k, v) :: rest, a, b =>
      if k = a then (a, b) :: rest else (k, v) :: dictSet rest a b

/-- `for k, v in mapping.items(): old[k] = v` — also the dict
comprehension `{k: v for k, v in mapping.items()}` when `old = []`. -/
def mergeMapping {β : Type} (old m : List (String × β)) : List (String × β) :=
  m.foldl (fun dd kv => dictSet dd kv.1 kv.2) old

/-- `VimageEntry.entry_info`: app label, specificity, resolved fields
and the rule-kind → compiled-predicate mapping. -/
structure EntryInfo (F β : Type) where
  app_label : String
  specificity : Nat
  fields : List F
  mapping : List (String × β)

/-- `info[label].append(e)` on a `defaultdict(list)`: buckets keep first
insertion order, appends go to the existing bucket. -/
def bucketAppend {I : Type} :
    List (String × List I) → String → I → List (String × List I)
  | [], lbl, i => [(lbl, [i])]
  | (k, v) :: rest, lbl, i =>
      if k = lbl then (k, v ++ [i]) :: rest
      else (k, v) :: bucketAppend rest lbl i

/-- `VimageConfig.build_info`: group the entry infos into per-app
buckets. -/
def build_info {F β : Type} (entries : List (EntryInfo F β)) :
    List (String × List (EntryInfo F β)) :=
  entries.foldl (fun acc e => bucketAppend acc e.app_label e) []

/-- Stable insertion of an entry before the first strictly-more-specific
entry. -/
def insertBySpec {F β : Type} (x : EntryInfo F β) :
    List (EntryInfo F β) → List (EntryInfo F β)
  | [] => [x]
  | y :: ys =>
      if x.specificity < y.specificity then x :: y :: ys
      else y :: insertBySpec x ys

/-- Stable sort by ascending specificity — the effect of the stable
`value.sort(key=lambda d: d['specificity'])`. -/
def sortBySpec {F β : Type} : List (EntryInfo F β) → List (EntryInfo F β)
  | [] => []
  | x :: xs => insertBySpec x (sortBySpec xs)

/-- `VimageConfig.sort_info`: sort each bucket, lower specificity first. -/
def sort_info {F β : Type} (info : List (String × List (EntryInfo F β))) :
    List (String × List (EntryInfo F β)) :=
  info.map fun b => (b.1, sortBySpec b.2)

/-- The body of the `for field in d['fields']` loop of
`build_draft_registry`: a new field gets a fresh copy of the mapping,
an existing one is updated key by key. -/
def processField {F β : Type} [DecidableEq F] (m : List (String × β))
    (dr : List (F × List (String × β))) (f : F) :
    List (F × List (String × β)) :=
  match dictGet dr f with
  | none => dictSet dr f (mergeMapping [] m)
  | some old => dictSet dr f (mergeMapping old m)

/-- `VimageConfig.build_draft_registry`. -/
def build_draft_registry {F β : Type} [DecidableEq F]
    (info : List (String × List (EntryInfo F β))) :
    List (F × List (String × β)) :=
  info.foldl
    (fun dr bucket =>
      bucket.2.foldl
        (fun dr2 d => d.fields.foldl (processField d.mapping) dr2)
        dr)
    []

/-- `VimageConfig.build_registry`: keep `mapping.values()` per field. -/
def build_registry {F β : Type}
    (draft : List (F × List (String × β))) : List (F × List β) :=
  draft.map fun p => (p.1, p.2.map Prod.snd)

/-- Lookup of the predicate registered for field `f` under rule kind
`k` in a draft registry. -/
def registryLookup {F β : Type} [DecidableEq F]
    (dr : List (F × List (String × β))) (f : F) (k : String) : Option β :=
  match dictGet dr f with
  | none => none
  | some m => dictGet m k

end Vimage

namespace Vimage

/-- Decidable equality of outcomes, for `decide`-style evaluation. -/
instance instDecEqExceptPyErrUnit : DecidableEq (Except PyError Unit) :=
  fun a b =>
    match a, b with
    | .ok x, .ok y => .isTrue (by cases x; cases y; rfl)
    | .error e, .error e2 =>
        if h : e = e2 then .isTrue (by rw [h]) else .isFalse (by simp [h])
    | .ok _, .error _ => .isFalse (by simp)
    | .error _, .ok _ => .isFalse (by simp)

/-! ### Result discriminators used by the statements -/

/-- The outcome is an `InvalidValueError`. -/
def isInvalidValueB : Except PyError Unit → Bool
  | .error (.invalidValue _) => true
  | _ => false

/-- The outcome is an `InvalidKeyError`. -/
def isInvalidKeyB : Except PyError Unit → Bool
  | .error (.invalidKey _) => true
  | _ => false

/-- The outcome is a `TypeError`. -/
def isTypeErrorB : Except PyError Unit → Bool
  | .error (.typeError _) => true
  | _ => false

end Vimage

namespace Vimage

/-! ### C3 -/

/-- C3 — counter-evidence for the claimed sub-dictionary validation: a
DIMENSIONS rule whose `'w'` sub-dictionary carries the nonsense pair
`lt`/`lte`, and one whose sub-dictionary is only `'err'`, are both
**accepted** by `is_valid`.  `validate_operators` runs its
`only_err_key`/`nonsense_operators` pre-checks on `self.rule.keys()`
(here `{'w'}`) rather than on the sub-dictionary it was given, so the
rejection the claim (and the method's own docstring) describe never
happens. -/
theorem dimensions_subdict_nonsense_accepted :
    dimensionsIsValid type_dimensions
      (.dict [("w", .dict [("lt", .int 100), ("lte", .int 200)])]) = .ok () ∧
    dimensionsIsValid type_dimensions
      (.dict [("w", .dict [("err", .str "oops")])]) = .ok () :=
  ⟨rfl, rfl⟩

/-! ### C4 -/

/-- C4 — the registry used for the field-lookup divergence: app
`myapp` with model `A` (image field `img`) and model `B` (no image
fields). -/
def c4Registry : List AppInfo :=
  [⟨"myapp", true, [⟨"A", ["img"]⟩, ⟨"B", []⟩]⟩]

/-- C4 — divergence witness: the named model `B` has no image field
`img`, yet `validate_dotted_key` accepts `myapp.models.B.img`, because
the source collects image-field names across *all* models of the app
(`model_classes`) instead of the named model.  (Resolution of this key
then targets `B._meta.get_field('img')`, which does not exist.) -/
theorem four_word_key_checks_app_wide_fields :
    validate_dotted_key c4Registry "myapp.models.B.img" = .ok () ∧
    ((c4Registry.headD ⟨"", false, []⟩).models.filter
        (fun m => m.name == "B")).all (fun m => !m.imageFields.contains "img")
      = true :=
  ⟨by decide, by decide⟩

/-! ### C5 -/

/-- C5 — counterexample: the claim says an ASPECT_RATIO
operator-dictionary with a non-positive float operand raises
`InvalidValueError`; `is_valid` on `{'gt': -1.5}` returns without
raising (`validate_operators` only applies its positivity test to
`int` operands, and `-1.5` is not an `int`). -/
theorem aspect_ratio_negative_float_operand_accepted :
    aspectRatioIsValid type_aspect_ratio
      (.dict [("gt", .float (-1.5 : Rat))]) = .ok () :=
  rfl

/-- C5 (amended) — what the code actually enforces for ASPECT_RATIO:
every operator operand in an operator-dictionary must be a float
(an `int` operand raises `InvalidValueError`), but its sign is not
checked — any float operand is accepted; positivity is enforced only
for the scalar-float rule form. -/
theorem aspect_ratio_operand_float_not_positivity :
    ∀ op ∈ valid_operators_strings,
      (∀ q : Rat,
        aspectRatioIsValid type_aspect_ratio (.dict [(op, .float q)]) = .ok ()) ∧
      (∀ n : Int,
        isInvalidValueB
          (aspectRatioIsValid type_aspect_ratio (.dict [(op, .int n)])) = true) ∧
      (∀ q : Rat, q ≤ 0 →
        isInvalidValueB (aspectRatioIsValid type_aspect_ratio (.float q)) = true) := by
  intro op hop
  fin_cases hop <;>
    refine ⟨fun q => rfl, fun n => rfl, fun q hq => ?_⟩ <;>
    · simp only [aspectRatioIsValid, positive_num_float, isInvalidValueB]
      rw [if_pos]
      simp [not_lt.mpr hq]

/-- C5 (amended) — witness at `op = 'gt'`, `q = -1.5`, `n = 7`,
scalar `q = 0`. -/
theorem aspect_ratio_operand_float_not_positivity_witness :
    aspectRatioIsValid type_aspect_ratio
        (.dict [("gt", .float (-1.5 : Rat))]) = .ok () ∧
      isInvalidValueB
        (aspectRatioIsValid type_aspect_ratio (.dict [("gt", .int 7)])) = true ∧
      isInvalidValueB (aspectRatioIsValid type_aspect_ratio (.float 0)) = true :=
  ⟨(aspect_ratio_operand_float_not_positivity "gt" (by decide)).1 (-1.5 : Rat),
   (aspect_ratio_operand_float_not_positivity "gt" (by decide)).2.1 7,
   (aspect_ratio_operand_float_not_positivity "gt" (by decide)).2.2 0 le_rfl⟩

end Vimage

namespace Vimage

/-! ### C6 -/

/-- C6 — counterexample: the claim says a non-string raw key fails key
resolution with `InvalidKeyError`; on the key `1` the resolution fails
with `TypeError` (raised by `VimageKey.__init__` before `is_valid` can
run), not with `InvalidKeyError`. -/
theorem non_string_key_raises_type_error :
    keyResolve [] (.int 1) =
      .error (.typeError ("Each VIMAGE dict key should be a <str> type. " ++
        "Current key: \"1\", is <int>!")) ∧
    isInvalidKeyB (keyResolve [] (.int 1)) = false :=
  ⟨by decide, by decide⟩

/-- C6 (amended) — key rejection taxonomy as the code implements it:
for every registry, a raw key that is not a string always fails with
`TypeError` (never succeeds, never raises `InvalidKeyError`), while the
empty-string key fails with `InvalidKeyError`. -/
theorem key_rejection_taxonomy_amended (reg : List AppInfo) :
    (∀ k : PyVal, (∀ s, k ≠ PyVal.str s) →
      ∃ m, keyResolve reg k = .error (.typeError m)) ∧
    (∃ m, keyResolve reg (PyVal.str "") = .error (.invalidKey m)) := by
  constructor
  · intro k hk
    cases k with
    | str s => exact absurd rfl (hk s)
    | int n => exact ⟨_, rfl⟩
    | float q => exact ⟨_, rfl⟩
    | tuple xs => exact ⟨_, rfl⟩
    | list xs => exact ⟨_, rfl⟩
    | dict d => exact ⟨_, rfl⟩
  · exact ⟨_, rfl⟩

/-- C6 (amended) — witness: empty registry, float key `2.0` and the
empty-string key. -/
theorem key_rejection_taxonomy_amended_witness :
    (∃ m, keyResolve [] (PyVal.float 2) = .error (.typeError m)) ∧
    (∃ m, keyResolve [] (PyVal.str "") = .error (.invalidKey m)) :=
  ⟨(key_rejection_taxonomy_amended []).1 (PyVal.float 2)
      (fun _ h => PyVal.noConfusion h),
   (key_rejection_taxonomy_amended []).2⟩

/-! ### C8 -/

/-- C8 — custom-error precedence for FORMAT: the compiled predicate for
`{'ne': 'jpeg', 'err': 'custom msg'}` applied to any image whose
decoded format lower-cases to `jpeg` raises a validation error whose
message is exactly `custom msg` (the auto template is only built when
no truthy custom error is present). -/
theorem format_custom_err_precedence (img : Img)
    (h : pyLower img.format = "jpeg") :
    formatValidator type_format
      (.dict [("ne", .str "jpeg"), ("err", .str "custom msg")]) img =
      .error (.validationError "custom msg") := by
  simp only [formatValidator, h]
  rfl

/-- C8 — witness: a 0-byte JPEG image record. -/
theorem format_custom_err_precedence_witness :
    pyLower (Img.mk 0 0 0 "JPEG").format = "jpeg" ∧
    formatValidator type_format
      (.dict [("ne", .str "jpeg"), ("err", .str "custom msg")])
      (Img.mk 0 0 0 "JPEG") = .error (.validationError "custom msg") :=
  ⟨by decide, format_custom_err_precedence (Img.mk 0 0 0 "JPEG") (by decide)⟩

/-! ### C2 -/

/-- C2 — nonsense operator-pair rejection: for each of the seven
exclusion pairs and each of the four rule kinds, `is_valid` on a rule
whose payload is a dictionary with exactly those two operator keys (in
either order, any operand values) raises `InvalidValueError`. -/
theorem nonsense_pair_rejected_all_kinds :
    ∀ p ∈ nonsense_operators_pairs, ∀ kind ∈ valid_types_strings,
      ∀ x y : PyVal,
      isInvalidValueB (factoryIsValid kind (.dict [(p.1, x), (p.2, y)])) = true ∧
      isInvalidValueB (factoryIsValid kind (.dict [(p.2, x), (p.1, y)])) = true := by
  intro p hp kind hk x y
  fin_cases hp <;> fin_cases hk <;> exact ⟨rfl, rfl⟩

/-- C2 — witness: pair `{lt, lte}` on a SIZE rule with operands
`100`/`200`. -/
theorem nonsense_pair_rejected_all_kinds_witness :
    isInvalidValueB (factoryIsValid "SIZE"
      (.dict [("lt", PyVal.int 100), ("lte", PyVal.int 200)])) = true :=
  (nonsense_pair_rejected_all_kinds ("lt", "lte") (by decide) "SIZE" (by decide)
    (PyVal.int 100) (PyVal.int 200)).1

end Vimage

namespace Vimage

/-! ### C9 -/

/-- C9 — configuration-check ordering: an absent setting raises
`MissingConfigError`; a present non-mapping raises
`InvalidConfigValueError`; an empty mapping raises `EmptyConfigError` —
each regardless of the registry, so no entry key is ever inspected in
those cases — and only for a non-empty mapping does the check become the
in-order per-entry validation (whose `Except` bind stops at the first
failing entry). -/
theorem configuration_check_order (reg : List AppInfo) :
    (∃ m, configuration_check reg none = .error (.missingConfig m)) ∧
    (∀ v : PyVal, (∀ d, v ≠ PyVal.dict d) →
      ∃ m, configuration_check reg (some v) = .error (.invalidConfigValue m)) ∧
    (∃ m, configuration_check reg (some (.dict [])) = .error (.emptyConfig m)) ∧
    (∀ (e : String × PyVal) (rest : List (String × PyVal)),
      configuration_check reg (some (.dict (e :: rest))) =
        (do entryIsValid reg e.1 e.2; checkEntries reg rest)) := by
  refine ⟨⟨_, rfl⟩, ?_, ⟨_, rfl⟩, ?_⟩
  · intro v hv
    cases v with
    | dict d => exact absurd rfl (hv d)
    | int n => exact ⟨_, rfl⟩
    | float q => exact ⟨_, rfl⟩
    | str s => exact ⟨_, rfl⟩
    | tuple xs => exact ⟨_, rfl⟩
    | list xs => exact ⟨_, rfl⟩
  · intro e rest
    rfl

/-- C9 — witness: empty registry, the non-mapping setting `0` and a
one-entry mapping. -/
theorem configuration_check_order_witness :
    (∃ m, configuration_check [] (some (PyVal.int 0)) =
      .error (.invalidConfigValue m)) ∧
    configuration_check [] (some (.dict [("k", PyVal.int 0)])) =
      (do entryIsValid [] "k" (PyVal.int 0); checkEntries [] []) :=
  ⟨(configuration_check_order []).2.1 (PyVal.int 0)
      (fun _ h => PyVal.noConfusion h),
   (configuration_check_order []).2.2.2 ("k", PyVal.int 0) []⟩

/-! ### C10 -/

/-- C10 — SIZE compares floor kilobytes: the compiled SIZE predicate for
an exact-size rule `n` accepts exactly the images whose byte size lies
in the half-open interval `[1024*n, 1024*(n+1))`, because the byte size
is floor-divided by 1024 before the `eq` comparison. -/
theorem size_exact_rule_floor_kb (n : Int) (img : Img) :
    sizeValidator type_size (.int n) img = .ok () ↔
      1024 * n ≤ (img.size : Int) ∧ (img.size : Int) < 1024 * (n + 1) := by
  have key : sizeValidator type_size (.int n) img = .ok () ↔
      ((img.size / 1024 : Nat) : Int) = n := by
    by_cases h : ((img.size / 1024 : Nat) : Int) = n
    · simp only [sizeValidator, pyEqB, pure_bind, h]
      simp
    · simp only [sizeValidator, pyEqB, pure_bind]
      simp only [beq_iff_eq, h, Bool.false_and, List.all_cons, List.all_nil,
        Bool.and_true, id_eq, if_false]
      simp [h, humanizeSizeRule, error_message_template, trans_type, pyTruthy,
        type_size, Bind.bind, Except.bind]
  rw [key]
  omega

/-- C10 — witness: an image of `1024*100 + 1023` bytes passes the
`'equal to 100 KB'` rule. -/
theorem size_exact_rule_floor_kb_witness :
    sizeValidator type_size (.int 100) (Img.mk 103423 0 0 "PNG") = .ok () :=
  (size_exact_rule_floor_kb 100 (Img.mk 103423 0 0 "PNG")).mpr (by decide)

end Vimage

namespace Vimage

/-! ### Reduction helpers for the `Except` monad -/

theorem pure_eq_ok {α : Type} (a : α) : (pure a : Except PyError α) = .ok a := rfl

theorem bind_ok {α γ : Type} (a : α) (f : α → Except PyError γ) :
    (Except.ok a >>= f) = f a := rfl

theorem bind_err {α γ : Type} (e : PyError) (f : α → Except PyError γ) :
    ((Except.error e : Except PyError α) >>= f) = .error e := rfl

/-! ### C7 -/

/-- On a list of encoded 2-int tuples the per-tuple comprehension never
raises and produces exactly the pairwise equality tests. -/
theorem dimsListTests_encoded (w h : Nat) (ts : List (Int × Int)) :
    dimsListTests w h (ts.map fun p => PyVal.tuple [.int p.1, .int p.2]) =
      .ok (ts.map fun p => ((w : Int) == p.1) && ((h : Int) == p.2)) := by
  induction ts with
  | nil => rfl
  | cons p rest ih =>
      simp [dimsListTests, pyIndex, pyEqB, ih, Bind.bind, Except.bind, pure,
        Except.pure]

/-- A dimensions list rule whose tests compute to `tests` passes iff
`any` of them holds (the failure branch always raises). -/
theorem dims_list_eval (ds : List PyVal) (img : Img) (tests : List Bool)
    (h : dimsListTests img.width img.height ds = .ok tests) :
    (dimensionsValidator type_dimensions (.list ds) img = .ok () ↔
      tests.any id = true) := by
  cases hany : tests.any id with
  | true =>
      simp only [dimensionsValidator, h, pure_eq_ok, bind_ok, hany, if_true]
  | false =>
      simp only [dimensionsValidator, h, pure_eq_ok, bind_ok, hany]
      simp only [Bool.false_eq_true, if_false, iff_false]
      cases hpv : prettifyDims
          (PyVal.tuple [.int (img.width : Int), .int (img.height : Int)]) with
      | error e => simp [hpv, bind_err, pyTruthy]
      | ok pv =>
          simp only [hpv, bind_ok]
          cases hum : humanizeDimsRule (PyVal.list ds) with
          | error e => simp [bind_err, pyTruthy]
          | ok hr =>
              simp only [bind_ok]
              cases hmt : error_message_template (trans_type type_dimensions)
                  pv hr with
              | error e => simp [bind_err, pyTruthy]
              | ok m => simp [bind_ok, pyTruthy]

/-- C7 — dimensions list match-any: the compiled predicate for a list of
2-tuples accepts an image iff at least one listed tuple equals the
image's `(width, height)` exactly. -/
theorem dimensions_list_match_any (ts : List (Int × Int)) (img : Img) :
    dimensionsValidator type_dimensions
        (.list (ts.map fun p => PyVal.tuple [.int p.1, .int p.2])) img
      = .ok () ↔
      ∃ p ∈ ts, (img.width : Int) = p.1 ∧ (img.height : Int) = p.2 := by
  rw [dims_list_eval _ img _ (dimsListTests_encoded img.width img.height ts)]
  simp [List.any_map, List.any_eq_true, Function.comp]

/-- C7 — witness: the rule `[(500,500),(500,498)]` accepts a 500×498
image and rejects a 500×497 one. -/
theorem dimensions_list_match_any_witness :
    dimensionsValidator type_dimensions
        (.list ([((500 : Int), (500 : Int)), (500, 498)].map fun p =>
          PyVal.tuple [.int p.1, .int p.2]))
        (Img.mk 0 500 498 "PNG") = .ok () ∧
    ¬ dimensionsValidator type_dimensions
        (.list ([((500 : Int), (500 : Int)), (500, 498)].map fun p =>
          PyVal.tuple [.int p.1, .int p.2]))
        (Img.mk 0 500 497 "PNG") = .ok () :=
  ⟨(dimensions_list_match_any [(500, 500), (500, 498)]
      (Img.mk 0 500 498 "PNG")).mpr (by decide),
   fun hok => absurd ((dimensions_list_match_any [(500, 500), (500, 498)]
      (Img.mk 0 500 497 "PNG")).mp hok) (by decide)⟩

end Vimage

namespace Vimage

/-! ### C1 — association-list lemmas for the registry build -/

section RegistryLemmas

variable {α β : Type} [DecidableEq α]

theorem dictGet_dictSet_self (d : List (α × β)) (k : α) (v : β) :
    dictGet (dictSet d k v) k = some v := by
  induction d with
  | nil => simp [dictSet, dictGet]
  | cons p rest ih =>
      obtain ⟨a, b⟩ := p
      by_cases h : a = k
      · simp [dictSet, dictGet, h]
      · simp [dictSet, dictGet, h, ih]

theorem dictGet_dictSet_ne (d : List (α × β)) {k a : α} (v : β) (h : k ≠ a) :
    dictGet (dictSet d a v) k = dictGet d k := by
  induction d with
  | nil => simp [dictSet, dictGet, h.symm]
  | cons p rest ih =>
      obtain ⟨a2, b2⟩ := p
      by_cases h2 : a2 = a
      · simp [dictSet, dictGet, h2, h.symm]
      · simp [dictSet, dictGet, h2, ih]

theorem dictGet_eq_none_of_not_mem (d : List (α × β)) {k : α}
    (h : k ∉ d.map Prod.fst) : dictGet d k = none := by
  induction d with
  | nil => rfl
  | cons p rest ih =>
      obtain ⟨a, b⟩ := p
      simp only [List.map_cons, List.mem_cons] at h
      push_neg at h
      simp [dictGet, Ne.symm h.1, ih h.2]

theorem mergeMapping_cons (old : List (String × β)) (a : String) (b : β)
    (m : List (String × β)) :
    mergeMapping old ((a, b) :: m) = mergeMapping (dictSet old a b) m := rfl

/-- Merging a mapping that lacks `k` leaves `k`-lookups unchanged. -/
theorem dictGet_mergeMapping_none {k : String} :
    ∀ (m : List (String × β)) (old : List (String × β)),
      dictGet m k = none → dictGet (mergeMapping old m) k = dictGet old k := by
  intro m
  induction m with
  | nil => intro old _; rfl
  | cons p rest ih =>
      intro old h
      obtain ⟨a, b⟩ := p
      rw [mergeMapping_cons]
      have ha : ¬ a = k := by
        intro hc
        simp [dictGet, hc] at h
      have hrest : dictGet rest k = none := by simpa [dictGet, ha] using h
      rw [ih _ hrest, dictGet_dictSet_ne _ _ (fun hc => ha hc.symm)]

/-- Merging a (duplicate-free) mapping that binds `k` makes its value
win the `k`-lookup. -/
theorem dictGet_mergeMapping_some {k : String} {v : β} :
    ∀ (m : List (String × β)) (old : List (String × β)),
      (m.map Prod.fst).Nodup → dictGet m k = some v →
      dictGet (mergeMapping old m) k = some v := by
  intro m
  induction m with
  | nil => intro old _ h; simp [dictGet] at h
  | cons p rest ih =>
      intro old hnd h
      obtain ⟨a, b⟩ := p
      rw [List.map_cons, List.nodup_cons] at hnd
      rw [mergeMapping_cons]
      by_cases hak : a = k
      · subst hak
        have hb : b = v := by simpa [dictGet] using h
        have hrest : dictGet rest a = none := dictGet_eq_none_of_not_mem _ hnd.1
        rw [dictGet_mergeMapping_none _ _ hrest, dictGet_dictSet_self, hb]
      · have hrest : dictGet rest k = some v := by simpa [dictGet, hak] using h
        exact ih (dictSet old a b) hnd.2 hrest

end RegistryLemmas

section DraftLemmas

variable {F β : Type} [DecidableEq F]

theorem registryLookup_processField_ne (m : List (String × β))
    (dr : List (F × List (String × β))) {f f' : F} (k : String) (h : f ≠ f') :
    registryLookup (processField m dr f') f k = registryLookup dr f k := by
  unfold processField registryLookup
  cases hg : dictGet dr f' <;> simp [hg, dictGet_dictSet_ne _ _ h]

theorem registryLookup_processField_self_some (m : List (String × β))
    (dr : List (F × List (String × β))) (f : F) {k : String} {v : β}
    (hnd : (m.map Prod.fst).Nodup) (hk : dictGet m k = some v) :
    registryLookup (processField m dr f) f k = some v := by
  unfold processField registryLookup
  cases hg : dictGet dr f with
  | none =>
      simp [hg, dictGet_dictSet_self, dictGet_mergeMapping_some m _ hnd hk]
  | some old =>
      simp [hg, dictGet_dictSet_self, dictGet_mergeMapping_some m _ hnd hk]

theorem registryLookup_processField_self_none (m : List (String × β))
    (dr : List (F × List (String × β))) (f : F) {k : String}
    (hk : dictGet m k = none) :
    registryLookup (processField m dr f) f k = registryLookup dr f k := by
  unfold processField registryLookup
  cases hg : dictGet dr f with
  | none =>
      simp [hg, dictGet_dictSet_self, dictGet_mergeMapping_none m _ hk, dictGet]
  | some old =>
      simp [hg, dictGet_dictSet_self, dictGet_mergeMapping_none m _ hk]

/-- Processing fields with a mapping that lacks `k` never changes a
`k`-lookup, for any field. -/
theorem registryLookup_foldFields_none (m : List (String × β)) {k : String}
    (hk : dictGet m k = none) (f : F) :
    ∀ (fs : List F) (dr : List (F × List (String × β))),
      registryLookup (fs.foldl (processField m) dr) f k =
        registryLookup dr f k := by
  intro fs
  induction fs with
  | nil => intro dr; rfl
  | cons f' rest ih =>
      intro dr
      rw [List.foldl_cons, ih]
      by_cases h : f = f'
      · subst h
        exact registryLookup_processField_self_none m dr f hk
      · exact registryLookup_processField_ne m dr k h

theorem registryLookup_foldFields_not_mem (m : List (String × β))
    (f : F) (k : String) :
    ∀ (fs : List F) (dr : List (F × List (String × β))), f ∉ fs →
      registryLookup (fs.foldl (processField m) dr) f k =
        registryLookup dr f k := by
  intro fs
  induction fs with
  | nil => intro dr _; rfl
  | cons f' rest ih =>
      intro dr hf
      rw [List.foldl_cons, ih _ (fun hc => hf (List.mem_cons_of_mem _ hc))]
      refine registryLookup_processField_ne m dr k (fun hc => hf ?_)
      rw [hc]
      exact List.mem_cons_self f' rest

/-- Processing an entry's fields installs its (duplicate-free) mapping:
afterwards every kind `k` the mapping binds looks up to the mapping's
value, on every processed field. -/
theorem registryLookup_foldFields_some (m : List (String × β)) {k : String}
    {v : β} (hnd : (m.map Prod.fst).Nodup) (hk : dictGet m k = some v)
    (f : F) :
    ∀ (fs : List F) (dr : List (F × List (String × β))), f ∈ fs →
      registryLookup (fs.foldl (processField m) dr) f k = some v := by
  intro fs
  induction fs with
  | nil => intro dr hf; cases hf
  | cons f' rest ih =>
      intro dr hf
      rw [List.foldl_cons]
      by_cases hmem : f ∈ rest
      · exact ih _ hmem
      · have hf' : f = f' := by
          rcases List.mem_cons.mp hf with h | h
          · exact h
          · exact absurd h hmem
        subst hf'
        rw [registryLookup_foldFields_not_mem m f k rest _ hmem]
        exact registryLookup_processField_self_some m dr f hnd hk

end DraftLemmas

/-- C1 — registry-build specificity override: for two valid entries of
the same app whose resolved field sets both contain `f`, with
specificities `s1 < s2`, the draft registry built from the sorted entry
info maps `f`, for every rule kind declared by the `s2` entry, to the
`s2` entry's predicate (overriding a same-named kind of the `s1`
entry), while every kind declared only by the `s1` entry still maps `f`
to the `s1` entry's predicate.  (Mapping keys are duplicate-free, as
Python dict keys are; entries resolving to a common field share their
`app_label`, since an entry's fields all belong to its own app.) -/
theorem registry_specificity_override {F β : Type} [DecidableEq F]
    (e1 e2 : EntryInfo F β) (f : F)
    (happ : e1.app_label = e2.app_label)
    (hspec : e1.specificity < e2.specificity)
    (hf1 : f ∈ e1.fields) (hf2 : f ∈ e2.fields)
    (hnd1 : (e1.mapping.map Prod.fst).Nodup)
    (hnd2 : (e2.mapping.map Prod.fst).Nodup) :
    (∀ k v, dictGet e2.mapping k = some v →
      registryLookup (build_draft_registry (sort_info (build_info [e1, e2])))
        f k = some v) ∧
    (∀ k v, dictGet e1.mapping k = some v → dictGet e2.mapping k = none →
      registryLookup (build_draft_registry (sort_info (build_info [e1, e2])))
        f k = some v) := by
  have hinfo : build_info [e1, e2] = [(e1.app_label, [e1, e2])] := by
    simp [build_info, bucketAppend, happ]
  have hsort : sort_info [(e1.app_label, [e1, e2])] =
      [(e1.app_label, [e1, e2])] := by
    simp [sort_info, sortBySpec, insertBySpec, hspec]
  have hdraft : build_draft_registry (sort_info (build_info [e1, e2])) =
      e2.fields.foldl (processField e2.mapping)
        (e1.fields.foldl (processField e1.mapping) []) := by
    rw [hinfo, hsort]
    rfl
  rw [hdraft]
  constructor
  · intro k v hk2
    exact registryLookup_foldFields_some e2.mapping hnd2 hk2 f e2.fields _ hf2
  · intro k v hk1 hk2
    rw [registryLookup_foldFields_none e2.mapping hk2 f e2.fields _]
    exact registryLookup_foldFields_some e1.mapping hnd1 hk1 f e1.fields [] hf1

/-- C1 — witness: an app-level entry (specificity 1) declaring `SIZE`
and `FORMAT` on fields `0, 1`, and a field-level entry (specificity 3)
declaring `FORMAT` on field `0`: after the build, field `0` gets the
field-level `FORMAT` predicate and keeps the app-level `SIZE` one. -/
theorem registry_specificity_override_witness :
    registryLookup (build_draft_registry (sort_info (build_info
      [(⟨"app", 1, [0, 1], [("SIZE", 10), ("FORMAT", 11)]⟩ :
          EntryInfo Nat Nat),
       ⟨"app", 3, [0], [("FORMAT", 20)]⟩]))) 0 "FORMAT" = some 20 ∧
    registryLookup (build_draft_registry (sort_info (build_info
      [(⟨"app", 1, [0, 1], [("SIZE", 10), ("FORMAT", 11)]⟩ :
          EntryInfo Nat Nat),
       ⟨"app", 3, [0], [("FORMAT", 20)]⟩]))) 0 "SIZE" = some 10 :=
  ⟨(registry_specificity_override
      (⟨"app", 1, [0, 1], [("SIZE", 10), ("FORMAT", 11)]⟩ : EntryInfo Nat Nat)
      ⟨"app", 3, [0], [("FORMAT", 20)]⟩ 0 rfl (by decide) (by decide)
      (by decide) (by decide) (by decide)).1 "FORMAT" 20 rfl,
   (registry_specificity_override
      (⟨"app", 1, [0, 1], [("SIZE", 10), ("FORMAT", 11)]⟩ : EntryInfo Nat Nat)
      ⟨"app", 3, [0], [("FORMAT", 20)]⟩ 0 rfl (by decide) (by decide)
      (by decide) (by decide) (by decide)).2 "SIZE" 10 rfl rfl⟩

end Vimage
